import Mathlib

/-
Verification of the schema-declaration model of the DSPy_Adventure course
repository.  The corpus consists of three Python files that declare
`dspy.Signature` classes (named input/output fields, optional `Literal`
enumerations) and print narration.  The first part embeds every signature
class declaration of the corpus; the second part models the schema API
(`define_contract`, `render_guidance`, `validate_binding`) that the
specification describes.
-/

set_option maxRecDepth 4096

namespace DSPyCourse

/-- Role of a field inside a signature: `dspy.InputField()` or
`dspy.OutputField()`. -/
inductive Role where
  | input
  | output
deriving DecidableEq

/-- Value type of a field: a plain string annotation (or no annotation,
which DSPy treats as `str`), or a `Literal[...]` enumeration of string
values. -/
inductive ValueType where
  | freeText
  | enumeration (allowed : List String)
deriving DecidableEq

/-- One field declaration inside a signature class: its attribute name,
its role, and its value type. -/
structure SigField where
  name : String
  role : Role
  vtype : ValueType
deriving DecidableEq

/-- One `dspy.Signature` subclass declaration of the corpus: class name,
docstring (`__doc__`, `none` when the class body has no string literal),
and its ordered field declarations. -/
structure SigDecl where
  className : String
  doc : Option String
  fields : List SigField
deriving DecidableEq

/- Challenge starter classes, src/modules/01-signatures/challenge/starter_code.py.
Every class body is a comment block followed by `pass`: no docstring and no
field declarations. -/

def starterBlogTitleGenerator : SigDecl :=
  SigDecl.mk "BlogTitleGenerator" none []

def starterProductReviewAnalyzer : SigDecl :=
  SigDecl.mk "ProductReviewAnalyzer" none []

def starterMeetingNotesExtractor : SigDecl :=
  SigDecl.mk "MeetingNotesExtractor" none []

def starterEmailResponseV1 : SigDecl :=
  SigDecl.mk "EmailResponseV1" none []

def starterEmailResponseV2 : SigDecl :=
  SigDecl.mk "EmailResponseV2" none []

def starterEmailResponseV3 : SigDecl :=
  SigDecl.mk "EmailResponseV3" none []

def starterFinancialReportAnalyzer : SigDecl :=
  SigDecl.mk "FinancialReportAnalyzer" none []

def starterSigs : List SigDecl :=
  [starterBlogTitleGenerator, starterProductReviewAnalyzer,
   starterMeetingNotesExtractor, starterEmailResponseV1,
   starterEmailResponseV2, starterEmailResponseV3,
   starterFinancialReportAnalyzer]

/- Solution classes, src/modules/01-signatures/solution/solution.py. -/

def solutionBlogTitleGenerator : SigDecl :=
  SigDecl.mk "BlogTitleGenerator"
    (some ("Generate an engaging blog post title from a topic.\n\n" ++
      "    Create titles that are attention-grabbing, clear, and relevant to the topic.\n    "))
    [SigField.mk "topic" Role.input ValueType.freeText,
     SigField.mk "title" Role.output ValueType.freeText]

def solutionProductReviewAnalyzer : SigDecl :=
  SigDecl.mk "ProductReviewAnalyzer"
    (some ("Analyze product reviews for sentiment, rating, and key points.\n\n" ++
      "    Extract structured insights from customer reviews to help product teams\n" ++
      "    understand customer feedback at scale.\n    "))
    [SigField.mk "product_name" Role.input ValueType.freeText,
     SigField.mk "review_text" Role.input ValueType.freeText,
     SigField.mk "sentiment" Role.output
       (ValueType.enumeration ["positive", "negative", "neutral"]),
     SigField.mk "rating" Role.output ValueType.freeText,
     SigField.mk "key_points" Role.output ValueType.freeText]

def solutionMeetingNotesExtractor : SigDecl :=
  SigDecl.mk "MeetingNotesExtractor"
    (some ("Extract structured information from meeting transcripts.\n\n" ++
      "    Parse meeting transcripts to identify:\n" ++
      "    - Key decisions that were made\n" ++
      "    - Action items with responsible parties\n" ++
      "    - Next steps for the team\n\n" ++
      "    Edge Case Handling:\n" ++
      "    - If no decisions were made, output \"No formal decisions recorded\"\n" ++
      "    - If action items lack owners, note as \"Owner: Unassigned\"\n" ++
      "    - If transcript is unclear/incomplete, set confidence to \x27low\x27\n\n" ++
      "    This signature supports both formal and casual meeting formats.\n    "))
    [SigField.mk "transcript" Role.input ValueType.freeText,
     SigField.mk "meeting_type" Role.input ValueType.freeText,
     SigField.mk "decisions" Role.output ValueType.freeText,
     SigField.mk "action_items" Role.output ValueType.freeText,
     SigField.mk "next_steps" Role.output ValueType.freeText,
     SigField.mk "confidence" Role.output
       (ValueType.enumeration ["high", "medium", "low"])]

def solutionEmailResponseV1 : SigDecl :=
  SigDecl.mk "EmailResponseV1"
    (some "Generate an email response.")
    [SigField.mk "email" Role.input ValueType.freeText,
     SigField.mk "response" Role.output ValueType.freeText]

def solutionEmailResponseV2 : SigDecl :=
  SigDecl.mk "EmailResponseV2"
    (some ("Generate a professional email response based on incoming email.\n\n" ++
      "    Match the tone of the original email and be concise.\n    "))
    [SigField.mk "email" Role.input ValueType.freeText,
     SigField.mk "context" Role.input ValueType.freeText,
     SigField.mk "response" Role.output ValueType.freeText,
     SigField.mk "tone" Role.output ValueType.freeText]

def solutionEmailResponseV3 : SigDecl :=
  SigDecl.mk "EmailResponseV3"
    (some ("Generate professional email responses with quality controls.\n\n" ++
      "    Create responses that:\n" ++
      "    - Match the urgency and tone of the incoming email\n" ++
      "    - Are grammatically correct and professional\n" ++
      "    - Include all necessary information from context\n" ++
      "    - Are appropriately concise (no unnecessary verbosity)\n\n" ++
      "    Edge Cases:\n" ++
      "    - If email is unclear, ask clarifying questions in response\n" ++
      "    - If context is insufficient, note what information is missing\n" ++
      "    - If tone is difficult to determine, default to professional/formal\n    "))
    [SigField.mk "email" Role.input ValueType.freeText,
     SigField.mk "context" Role.input ValueType.freeText,
     SigField.mk "response_goal" Role.input ValueType.freeText,
     SigField.mk "response" Role.output ValueType.freeText,
     SigField.mk "tone" Role.output
       (ValueType.enumeration ["formal", "professional", "friendly", "casual"]),
     SigField.mk "urgency" Role.output
       (ValueType.enumeration ["high", "medium", "low"]),
     SigField.mk "confidence" Role.output
       (ValueType.enumeration ["high", "medium", "low"]),
     SigField.mk "flags" Role.output ValueType.freeText]

def solutionFinancialReportAnalyzer : SigDecl :=
  SigDecl.mk "FinancialReportAnalyzer"
    (some ("Analyze financial reports for compliance and risk assessment.\n\n" ++
      "    Extract structured financial data and identify potential red flags from\n" ++
      "    quarterly and annual financial reports. This signature is designed for\n" ++
      "    compliance teams and auditors.\n\n" ++
      "    Requirements:\n" ++
      "    - Extract only explicitly stated metrics (no speculation)\n" ++
      "    - Cite exact locations in report for all extracted data\n" ++
      "    - Flag any anomalies or concerning patterns\n" ++
      "    - Assess confidence based on report clarity and completeness\n\n" ++
      "    Compliance Notes:\n" ++
      "    - All metrics must be traceable to source document\n" ++
      "    - Uncertainty must be explicitly communicated\n" ++
      "    - Red flags should reference specific regulatory concerns\n" ++
      "    - Evidence field is required for audit trail\n\n" ++
      "    Supported Report Types: 10-K, 10-Q, 8-K, Annual Report, Quarterly Report\n    "))
    [SigField.mk "report_text" Role.input ValueType.freeText,
     SigField.mk "report_type" Role.input
       (ValueType.enumeration ["10-K", "10-Q", "8-K", "annual", "quarterly", "other"]),
     SigField.mk "fiscal_period" Role.input ValueType.freeText,
     SigField.mk "focus_areas" Role.input ValueType.freeText,
     SigField.mk "revenue" Role.output ValueType.freeText,
     SigField.mk "net_income" Role.output ValueType.freeText,
     SigField.mk "cash_position" Role.output ValueType.freeText,
     SigField.mk "debt_level" Role.output ValueType.freeText,
     SigField.mk "red_flags" Role.output ValueType.freeText,
     SigField.mk "risk_level" Role.output
       (ValueType.enumeration ["low", "moderate", "high", "critical"]),
     SigField.mk "confidence" Role.output
       (ValueType.enumeration ["high", "medium", "low"]),
     SigField.mk "evidence" Role.output ValueType.freeText,
     SigField.mk "missing_data" Role.output ValueType.freeText]

def solutionSigs : List SigDecl :=
  [solutionBlogTitleGenerator, solutionProductReviewAnalyzer,
   solutionMeetingNotesExtractor, solutionEmailResponseV1,
   solutionEmailResponseV2, solutionEmailResponseV3,
   solutionFinancialReportAnalyzer]

/- Guide classes, src/dspy-course/modules/01-signatures/guide/annotated_examples.py. -/

def guideBasicQA : SigDecl :=
  SigDecl.mk "BasicQA"
    (some "Answer questions with short factoid answers.")
    [SigField.mk "question" Role.input ValueType.freeText,
     SigField.mk "answer" Role.output ValueType.freeText]

def guideDescriptiveQA : SigDecl :=
  SigDecl.mk "DescriptiveQA"
    (some ("Answer questions using provided context.\n\n" ++
      "    Focus on factual accuracy. Cite the context when possible.\n" ++
      "    If the answer isn\x27t in the context, say so clearly.\n    "))
    [SigField.mk "question" Role.input ValueType.freeText,
     SigField.mk "context" Role.input ValueType.freeText,
     SigField.mk "answer" Role.output ValueType.freeText]

def guideProductionQA : SigDecl :=
  SigDecl.mk "ProductionQA"
    (some ("Answer questions with confidence assessment.\n\n" ++
      "    Requirements:\n" ++
      "    - Use only provided context for answers\n" ++
      "    - Indicate confidence level based on evidence quality\n" ++
      "    - Quote exact text from context to support answer\n" ++
      "    - If context is insufficient, explicitly state \"Insufficient information\"\n\n" ++
      "    This signature is designed for high-reliability QA systems.\n    "))
    [SigField.mk "question" Role.input ValueType.freeText,
     SigField.mk "context" Role.input ValueType.freeText,
     SigField.mk "answer" Role.output ValueType.freeText,
     SigField.mk "confidence" Role.output
       (ValueType.enumeration ["high", "medium", "low"]),
     SigField.mk "evidence" Role.output ValueType.freeText]

def guideEmailClassifier : SigDecl :=
  SigDecl.mk "EmailClassifier"
    (some ("Classify emails as spam or legitimate.\n\n" ++
      "    Consider: suspicious links, urgent language, grammar quality,\n" ++
      "    sender reputation indicators, promotional content.\n    "))
    [SigField.mk "email_subject" Role.input ValueType.freeText,
     SigField.mk "email_body" Role.input ValueType.freeText,
     SigField.mk "classification" Role.output
       (ValueType.enumeration ["spam", "legitimate"]),
     SigField.mk "reasoning" Role.output ValueType.freeText]

def guideArticleExtractor : SigDecl :=
  SigDecl.mk "ArticleExtractor"
    (some ("Extract structured information from news articles.\n\n" ++
      "    Parse article text and identify key components.\n" ++
      "    Be precise - only extract what\x27s explicitly stated.\n    "))
    [SigField.mk "article_text" Role.input ValueType.freeText,
     SigField.mk "title" Role.output ValueType.freeText,
     SigField.mk "author" Role.output ValueType.freeText,
     SigField.mk "publication_date" Role.output ValueType.freeText,
     SigField.mk "summary" Role.output ValueType.freeText,
     SigField.mk "category" Role.output
       (ValueType.enumeration ["politics", "technology", "sports", "business", "other"]),
     SigField.mk "sentiment" Role.output
       (ValueType.enumeration ["positive", "negative", "neutral"])]

def guideSentimentV1 : SigDecl :=
  SigDecl.mk "SentimentV1"
    (some "Analyze sentiment.")
    [SigField.mk "text" Role.input ValueType.freeText,
     SigField.mk "sentiment" Role.output ValueType.freeText]

def guideSentimentV2 : SigDecl :=
  SigDecl.mk "SentimentV2"
    (some "Classify text sentiment as positive, negative, or neutral.")
    [SigField.mk "text" Role.input ValueType.freeText,
     SigField.mk "sentiment" Role.output ValueType.freeText]

def guideSentimentV3 : SigDecl :=
  SigDecl.mk "SentimentV3"
    (some ("Classify sentiment with confidence assessment.\n\n" ++
      "    Analyze emotional tone. Return neutral for ambiguous text.\n" ++
      "    Consider word choice, punctuation, context.\n    "))
    [SigField.mk "text" Role.input ValueType.freeText,
     SigField.mk "sentiment" Role.output
       (ValueType.enumeration ["positive", "negative", "neutral"]),
     SigField.mk "confidence" Role.output
       (ValueType.enumeration ["high", "medium", "low"]),
     SigField.mk "key_phrases" Role.output ValueType.freeText]

def guideSigs : List SigDecl :=
  [guideBasicQA, guideDescriptiveQA, guideProductionQA, guideEmailClassifier,
   guideArticleExtractor, guideSentimentV1, guideSentimentV2, guideSentimentV3]

/-- Every signature/contract declaration present in the three source
files, challenge starter classes included. -/
def corpusSigs : List SigDecl := starterSigs ++ solutionSigs ++ guideSigs

/-- Structural invariant of a contract declaration named by the spec:
field names unique across inputs and outputs combined, at least one
input field, and at least one output field. -/
def contractInvariant (s : SigDecl) : Bool :=
  decide (s.fields.map SigField.name).Nodup &&
  s.fields.any (fun f => f.role == Role.input) &&
  s.fields.any (fun f => f.role == Role.output)

/- Schema Declaration Model.  The course material stops at class
declaration; the model functions described by the specification are not
implemented by any file under src/, so they are modelled from the
specification text (sections 3, 4.1 and 7). -/

/-- Modelled from the spec: length bounds a length-constrained text field
may declare (spec section 4.1, check (3); the corpus itself never builds
such a field mechanically). -/
structure LengthBounds where
  lo : Nat
  hi : Nat
deriving DecidableEq

/-- Modelled from the spec: one named slot within a Contract — name, role,
value type, optional guidance text, an optional marker for the presence
check, and optional length bounds (spec section 3, FieldSpec). -/
structure FieldSpec where
  name : String
  role : Role
  value_type : ValueType
  description : Option String
  optional : Bool
  bounds : Option LengthBounds
deriving DecidableEq

/-- Modelled from the spec: the top-level entity a user defines — a
free-text description plus the ordered field declarations; input and
output sequences are the role-filtered subsequences (spec section 3,
Contract). -/
structure Contract where
  description : String
  fields : List FieldSpec
deriving DecidableEq

/-- Modelled from the spec: error raised when the declared contract itself
is malformed (spec section 7, SchemaError). -/
inductive SchemaError where
  | duplicateFieldName
  | noInputField
  | noOutputField
  | emptyEnumeration
  | duplicateEnumerationValues
deriving DecidableEq

/-- Modelled from the spec: error raised when a caller names a field
absent from the contract (spec section 7, UnknownFieldError). -/
structure UnknownFieldError where
  fieldName : String
deriving DecidableEq

/-- Modelled from the spec: the rule a data-quality violation reports —
presence, enumeration membership, or length bound (spec section 7,
Violation). -/
inductive Rule where
  | presence
  | enumerationMembership
  | lengthBound
deriving DecidableEq

/-- Modelled from the spec: a structured data-quality finding — offending
field name, the rule broken, and the offending raw value when one was
supplied (spec section 7, Violation). -/
structure Violation where
  fieldName : String
  rule : Rule
  offending : Option String
deriving DecidableEq

/-- Modelled from the spec: a Binding maps field names to concrete raw
values (spec section 3, Binding — conceptual in the corpus). -/
abbrev Binding := List (String × String)

/-- True when the value type is an enumeration with zero allowed values. -/
def isEmptyEnum : ValueType → Bool
  | ValueType.freeText => false
  | ValueType.enumeration allowed => allowed.isEmpty

/-- True when the value type is an enumeration with a repeated allowed
value. -/
def hasDupEnum : ValueType → Bool
  | ValueType.freeText => false
  | ValueType.enumeration allowed => !(decide allowed.Nodup)

/-- Modelled from the spec: `define_contract(description, fields)` builds
a Contract, failing with SchemaError when any two fields share a name,
when the list has zero inputs or zero outputs, or when an
enumeration-typed field declares zero or duplicate allowed values (spec
section 4.1). -/
def define_contract (d : String) (fs : List FieldSpec) :
    Except SchemaError Contract :=
  if ¬ (fs.map FieldSpec.name).Nodup then
    Except.error SchemaError.duplicateFieldName
  else if !fs.any (fun f => f.role == Role.input) then
    Except.error SchemaError.noInputField
  else if !fs.any (fun f => f.role == Role.output) then
    Except.error SchemaError.noOutputField
  else if fs.any (fun f => isEmptyEnum f.value_type) then
    Except.error SchemaError.emptyEnumeration
  else if fs.any (fun f => hasDupEnum f.value_type) then
    Except.error SchemaError.duplicateEnumerationValues
  else
    Except.ok (Contract.mk d fs)

/-- Render a role as text. -/
def renderRole : Role → String
  | Role.input => "input"
  | Role.output => "output"

/-- Render a value type as text. -/
def renderType : ValueType → String
  | ValueType.freeText => "free-text"
  | ValueType.enumeration allowed => "one of: " ++ String.intercalate ", " allowed

/-- Render one field: name, role, type, and guidance text when present. -/
def renderField (f : FieldSpec) : String :=
  f.name ++ " [" ++ renderRole f.role ++ ", " ++ renderType f.value_type ++ "]" ++
  (match f.description with
   | none => ""
   | some d => " - " ++ d)

/-- Modelled from the spec: `render_guidance(contract)` combines the
description and each field name, role, type, and description into a
human/model-readable text; pure and deterministic (spec section 4.1). -/
def render_guidance (c : Contract) : String :=
  c.description ++ "\n" ++ String.intercalate "\n" (c.fields.map renderField)

/-- Data-quality checks of one declared field against a binding: (rule,
offending value) pairs for presence, enumeration membership, and length
bounds of length-constrained text fields (spec section 4.1, checks 1-3). -/
def checkRules (b : Binding) (f : FieldSpec) : List (Rule × Option String) :=
  match List.lookup f.name b with
  | none => if f.optional then [] else [(Rule.presence, none)]
  | some v =>
    match f.value_type with
    | ValueType.freeText =>
      match f.bounds with
      | none => []
      | some lb =>
        if lb.lo ≤ v.length && v.length ≤ lb.hi then []
        else [(Rule.lengthBound, some v)]
    | ValueType.enumeration allowed =>
      if allowed.contains v then []
      else [(Rule.enumerationMembership, some v)]

/-- Violations one declared field contributes, each naming that field. -/
def checkField (b : Binding) (f : FieldSpec) : List Violation :=
  (checkRules b f).map (fun rv => Violation.mk f.name rv.fst rv.snd)

/-- Field names a contract declares. -/
def declaredNames (c : Contract) : List String :=
  c.fields.map FieldSpec.name

/-- Modelled from the spec: `validate_binding(contract, values)` raises
UnknownFieldError exactly for a binding key not declared in the contract,
and otherwise returns the structured violation records of every declared
field (spec sections 4.1 and 7); the contract is never modified. -/
def validate_binding (c : Contract) (b : Binding) :
    Except UnknownFieldError (List Violation) :=
  match b.find? (fun kv => !(declaredNames c).contains kv.fst) with
  | some kv => Except.error (UnknownFieldError.mk kv.fst)
  | none => Except.ok (List.flatten (c.fields.map (checkField b)))

/- Executed top-level statements of the three source files, for the
no-model-invocation property.  A statement kind that would invoke a
language model or perform network I/O exists in the model (`lmConfigure`
for `dspy.LM`/`dspy.configure`, `lmPredict` for `dspy.Predict` calls);
in the sources those calls occur only inside comments, so they appear in
no statement list below. -/

/-- Kind of one executed Python statement of the corpus. -/
inductive PyStmt where
  | docString
  | importStmt (moduleName : String)
  | classDef (className : String)
  | assign (target : String)
  | printStmt
  | lmConfigure
  | lmPredict
deriving DecidableEq

/-- True for a statement that invokes a language model or performs
network I/O. -/
def callsModel : PyStmt → Bool
  | PyStmt.lmConfigure => true
  | PyStmt.lmPredict => true
  | _ => false

/-- Executed statements of starter_code.py: module docstring, imports,
the seven starter class declarations, and under the `__main__` guard the
prints of lines 157-159 and 195-197 (everything else is comments). -/
def starterStmts : List PyStmt :=
  [PyStmt.docString, PyStmt.importStmt "dspy", PyStmt.importStmt "typing"] ++
  starterSigs.map (fun s => PyStmt.classDef s.className) ++
  List.replicate 6 PyStmt.printStmt

/-- Body of the `for name, sig_class in signatures:` loop of solution.py
(lines 367-379): two header prints, the docstring-slice print, the two
field-list comprehension assignments, and the two count prints. -/
def solutionLoopBody : List PyStmt :=
  [PyStmt.printStmt, PyStmt.printStmt, PyStmt.printStmt,
   PyStmt.assign "input_fields", PyStmt.assign "output_fields",
   PyStmt.printStmt, PyStmt.printStmt]

/-- Executed statements of solution.py: docstring, imports, the seven
class declarations, and under the `__main__` guard the header prints
(352-354), the `signatures` list assignment (357-365), the loop body run
once per signature (367-379), and the closing prints (381-384, 411-414);
the live-test section of lines 416-437 is entirely comments. -/
def solutionStmts : List PyStmt :=
  [PyStmt.docString, PyStmt.importStmt "dspy", PyStmt.importStmt "typing"] ++
  solutionSigs.map (fun s => PyStmt.classDef s.className) ++
  List.replicate 3 PyStmt.printStmt ++
  [PyStmt.assign "signatures"] ++
  (List.replicate 7 solutionLoopBody).flatten ++
  List.replicate 4 PyStmt.printStmt ++
  List.replicate 4 PyStmt.printStmt

/-- Executed statements of annotated_examples.py: docstring, imports, and
the interleaving of narration prints with the eight class declarations;
the `dspy.LM` setup of lines 17-19 and the usage patterns of lines 45-48
are comments. -/
def guideStmts : List PyStmt :=
  [PyStmt.docString, PyStmt.importStmt "dspy", PyStmt.importStmt "typing"] ++
  List.replicate 4 PyStmt.printStmt ++
  [PyStmt.classDef "BasicQA"] ++
  List.replicate 7 PyStmt.printStmt ++
  [PyStmt.classDef "DescriptiveQA"] ++
  List.replicate 7 PyStmt.printStmt ++
  [PyStmt.classDef "ProductionQA"] ++
  List.replicate 8 PyStmt.printStmt ++
  [PyStmt.classDef "EmailClassifier"] ++
  List.replicate 6 PyStmt.printStmt ++
  [PyStmt.classDef "ArticleExtractor"] ++
  List.replicate 6 PyStmt.printStmt ++
  [PyStmt.classDef "SentimentV1"] ++
  List.replicate 4 PyStmt.printStmt ++
  [PyStmt.classDef "SentimentV2"] ++
  List.replicate 5 PyStmt.printStmt ++
  [PyStmt.classDef "SentimentV3"] ++
  List.replicate 17 PyStmt.printStmt

/-- The `signatures` list built in the `__main__` block of solution.py
(lines 357-365): the seven solution classes, in declaration order. -/
def solutionMainSignatures : List SigDecl := solutionSigs

/-- Python evaluation of `sig_class.__doc__[:100]` (solution.py line
370): slicing `None` raises TypeError, slicing a string yields its first
100 characters. -/
def docstringSlice (s : SigDecl) : Except String String :=
  match s.doc with
  | none => Except.error "TypeError: NoneType object is not subscriptable"
  | some d => Except.ok (d.take 100)

/-- True when an Except value is a success. -/
def exceptOk {ε α : Type} : Except ε α → Bool
  | Except.ok _ => true
  | Except.error _ => false

/-- True when the first character list starts the second. -/
def leadsWith : List Char → List Char → Bool
  | [], _ => true
  | _ :: _, [] => false
  | a :: as, b :: bs => a == b && leadsWith as bs

/-- True when the first character list occurs contiguously inside the
second. -/
def containsChars : List Char → List Char → Bool
  | pat, [] => pat.isEmpty
  | pat, b :: bs => leadsWith pat (b :: bs) || containsChars pat bs

/-- True when `pat` occurs as a contiguous substring of `s`. -/
def containsSubstr (s pat : String) : Bool :=
  containsChars pat.data s.data

/-- Contract of the BasicQA scenario: free-text input `question`,
free-text output `answer`, description from the BasicQA docstring
(annotated_examples.py lines 32-37). -/
def basicQAContract : Contract :=
  Contract.mk "Answer questions with short factoid answers."
    [FieldSpec.mk "question" Role.input ValueType.freeText none false none,
     FieldSpec.mk "answer" Role.output ValueType.freeText none false none]

/-- Field list with a duplicate name across roles. -/
def dupNameFields : List FieldSpec :=
  [FieldSpec.mk "question" Role.input ValueType.freeText none false none,
   FieldSpec.mk "question" Role.output ValueType.freeText none false none]

/-- Field list with one free-text input and one enumeration output that
declares zero allowed values. -/
def emptyEnumFields : List FieldSpec :=
  [FieldSpec.mk "text" Role.input ValueType.freeText none false none,
   FieldSpec.mk "label" Role.output (ValueType.enumeration []) none false none]

/-- Enumeration-typed `confidence` field allowing high/medium/low, as in
ProductionQA and MeetingNotesExtractor. -/
def confidenceField : FieldSpec :=
  FieldSpec.mk "confidence" Role.output
    (ValueType.enumeration ["high", "medium", "low"]) none false none

/-- Contract holding a free-text input and the `confidence` enumeration
output. -/
def confidenceContract : Contract :=
  Contract.mk "Extract meeting notes."
    [FieldSpec.mk "transcript" Role.input ValueType.freeText none false none,
     confidenceField]

/-- Binding supplying `confidence="high"` along with the input field. -/
def bindingHigh : Binding :=
  [("transcript", "We decided to ship."), ("confidence", "high")]

/-- Binding supplying `confidence="HIGH"`. -/
def bindingUpper : Binding :=
  [("confidence", "HIGH")]

/- Theorems. -/

/-- Every violation a field contributes names that field. -/
theorem mem_checkField (b : Binding) (f : FieldSpec) (v : Violation)
    (hv : v ∈ checkField b f) : v.fieldName = f.name := by
  unfold checkField at hv
  rcases List.mem_map.mp hv with ⟨rv, _, rfl⟩
  rfl

/-- Filtering a field's own violations by its name keeps them all. -/
theorem filter_checkField_self (b : Binding) (f : FieldSpec) :
    (checkField b f).filter (fun v => v.fieldName == f.name) = checkField b f := by
  apply List.filter_eq_self.mpr
  intro v hv
  rw [mem_checkField b f v hv]
  simp

/-- Filtering a field's violations by a different name drops them all. -/
theorem filter_checkField_ne (b : Binding) (g : FieldSpec) (n : String)
    (h : g.name ≠ n) :
    (checkField b g).filter (fun v => v.fieldName == n) = [] := by
  apply List.filter_eq_nil_iff.mpr
  intro v hv
  rw [mem_checkField b g v hv]
  simp [h]

/-- With unique field names, filtering the collected violations by one
declared field's name leaves exactly that field's violations. -/
theorem filter_flatten_checkField (b : Binding) (fs : List FieldSpec)
    (f : FieldSpec) (hnd : (fs.map FieldSpec.name).Nodup) (hf : f ∈ fs) :
    (List.flatten (fs.map (checkField b))).filter
      (fun v => v.fieldName == f.name) = checkField b f := by
  induction fs with
  | nil => cases hf
  | cons g gs ih =>
    rw [List.map_cons, List.flatten_cons, List.filter_append]
    rw [List.map_cons, List.nodup_cons] at hnd
    rcases List.mem_cons.mp hf with rfl | hfgs
    · rw [filter_checkField_self]
      have hrest : (List.flatten (gs.map (checkField b))).filter
          (fun v => v.fieldName == f.name) = [] := by
        apply List.filter_eq_nil_iff.mpr
        intro v hv
        rcases List.mem_flatten.mp hv with ⟨l, hl, hvl⟩
        rcases List.mem_map.mp hl with ⟨g2, hg2, rfl⟩
        rw [mem_checkField b g2 v hvl]
        simp only [beq_iff_eq]
        intro hgf
        exact hnd.1 (hgf ▸ List.mem_map_of_mem FieldSpec.name hg2)
      rw [hrest, List.append_nil]
    · have hne : g.name ≠ f.name := by
        intro he
        exact hnd.1 (he ▸ List.mem_map_of_mem FieldSpec.name hfgs)
      rw [filter_checkField_ne b g f.name hne, List.nil_append]
      exact ih hnd.2 hfgs

/-- When every binding key is declared, validation succeeds and returns
the collected per-field violations. -/
theorem validate_binding_ok (c : Contract) (b : Binding)
    (hk : ∀ kv ∈ b, ((declaredNames c).contains kv.fst) = true) :
    validate_binding c b =
      Except.ok (List.flatten (c.fields.map (checkField b))) := by
  unfold validate_binding
  have hfind : b.find? (fun kv => !(declaredNames c).contains kv.fst) = none := by
    apply List.find?_eq_none.mpr
    intro kv hkv
    rw [hk kv hkv]
    decide
  rw [hfind]

/-- Violations of an enumeration-typed field reduce to the membership
test on the supplied value. -/
theorem checkField_enum (b : Binding) (f : FieldSpec) (allowed : List String)
    (v : String) (htype : f.value_type = ValueType.enumeration allowed)
    (hv : List.lookup f.name b = some v) :
    checkField b f =
      if allowed.contains v then []
      else [Violation.mk f.name Rule.enumerationMembership (some v)] := by
  obtain ⟨nm, rl, vt, ds, op, bd⟩ := f
  simp only at htype hv
  subst htype
  simp [checkField, checkRules, hv]
  split
  · rfl
  · rfl

/-- C1 counterexample: the claim quantifies over every
signature/contract declaration of the source files, challenge starter
classes included, but the starter BlogTitleGenerator declares no fields
at all, so it has zero inputs and zero outputs and the structural
invariant fails on the corpus as a whole. -/
theorem corpus_invariant_fails_on_starter :
    starterBlogTitleGenerator ∈ corpusSigs ∧
    contractInvariant starterBlogTitleGenerator = false ∧
    corpusSigs.all contractInvariant = false := by
  refine ⟨by decide, by decide, by decide⟩

/-- C1 (amended): every signature declaration of solution.py and
annotated_examples.py satisfies the structural invariant — field names
unique across inputs and outputs combined, at least one input field, and
at least one output field; only the seven challenge starter stubs, which
declare no fields, fail it. -/
theorem corpus_invariant_holds_for_implemented :
    (solutionSigs ++ guideSigs).all contractInvariant = true := by
  decide

/-- C2: for every description and field list in which two fields share a
name (whatever their roles or value types), or which has zero inputs or
zero outputs, or in which an enumeration-typed field declares zero or
duplicate allowed values, define_contract fails with a SchemaError. -/
theorem define_contract_rejects_malformed (d : String) (fs : List FieldSpec)
    (h : ¬ (fs.map FieldSpec.name).Nodup
       ∨ (∀ f ∈ fs, f.role ≠ Role.input)
       ∨ (∀ f ∈ fs, f.role ≠ Role.output)
       ∨ (∃ f ∈ fs, ∃ a, f.value_type = ValueType.enumeration a ∧
            (a = [] ∨ ¬ a.Nodup))) :
    ∃ e, define_contract d fs = Except.error e := by
  unfold define_contract
  split
  · exact ⟨_, rfl⟩
  split
  · exact ⟨_, rfl⟩
  split
  · exact ⟨_, rfl⟩
  split
  · exact ⟨_, rfl⟩
  split
  · exact ⟨_, rfl⟩
  rename_i h1 h2 h3 h4 h5
  exfalso
  have h2t : fs.any (fun f => f.role == Role.input) = true := by simpa using h2
  have h3t : fs.any (fun f => f.role == Role.output) = true := by simpa using h3
  rcases h with hdup | hnoin | hnoout | ⟨f, hf, a, hfa, hbad⟩
  · exact hdup (not_not.mp h1)
  · rcases List.any_eq_true.mp h2t with ⟨f, hf, hb⟩
    exact hnoin f hf (by simpa using hb)
  · rcases List.any_eq_true.mp h3t with ⟨f, hf, hb⟩
    exact hnoout f hf (by simpa using hb)
  · rcases hbad with rfl | hnodup
    · refine h4 (List.any_eq_true.mpr ⟨f, hf, ?_⟩)
      rw [hfa]
      rfl
    · refine h5 (List.any_eq_true.mpr ⟨f, hf, ?_⟩)
      rw [hfa]
      show (!(decide a.Nodup)) = true
      rw [decide_eq_false hnodup]
      rfl

/-- C2 witness: a field list with the name `question` used by both an
input and an output is rejected. -/
theorem define_contract_rejects_malformed_witness :
    ∃ e, define_contract "Answer the question." dupNameFields =
      Except.error e :=
  define_contract_rejects_malformed "Answer the question." dupNameFields
    (Or.inl (by decide))

/-- C3: for every contract with unique field names, every
enumeration-typed field of it allowing exactly high/medium/low, and
every pair of bindings over declared keys supplying "high" resp. "HIGH"
for that field, validation succeeds, the "high" binding produces no
violation for that field, and the "HIGH" binding produces exactly one
violation for it, naming the field and the enumeration-membership rule. -/
theorem validate_enum_case_sensitive (c : Contract) (f : FieldSpec)
    (b1 b2 : Binding)
    (hmem : f ∈ c.fields)
    (hnd : (c.fields.map FieldSpec.name).Nodup)
    (htype : f.value_type = ValueType.enumeration ["high", "medium", "low"])
    (hk1 : ∀ kv ∈ b1, ((declaredNames c).contains kv.fst) = true)
    (hv1 : List.lookup f.name b1 = some "high")
    (hk2 : ∀ kv ∈ b2, ((declaredNames c).contains kv.fst) = true)
    (hv2 : List.lookup f.name b2 = some "HIGH") :
    ∃ vs1 vs2,
      validate_binding c b1 = Except.ok vs1 ∧
      vs1.filter (fun v => v.fieldName == f.name) = [] ∧
      validate_binding c b2 = Except.ok vs2 ∧
      vs2.filter (fun v => v.fieldName == f.name) =
        [Violation.mk f.name Rule.enumerationMembership (some "HIGH")] := by
  refine ⟨_, _, validate_binding_ok c b1 hk1, ?_,
          validate_binding_ok c b2 hk2, ?_⟩
  · rw [filter_flatten_checkField b1 c.fields f hnd hmem,
        checkField_enum b1 f _ _ htype hv1]
    rfl
  · rw [filter_flatten_checkField b2 c.fields f hnd hmem,
        checkField_enum b2 f _ _ htype hv2]
    rfl

/-- C3 witness: against the contract declaring transcript and the
high/medium/low confidence field, the binding with confidence "high"
yields no violation for confidence, and the binding with confidence
"HIGH" yields exactly the enumeration-membership violation for it. -/
theorem validate_enum_case_sensitive_witness :
    ∃ vs1 vs2,
      validate_binding confidenceContract bindingHigh = Except.ok vs1 ∧
      vs1.filter (fun v => v.fieldName == confidenceField.name) = [] ∧
      validate_binding confidenceContract bindingUpper = Except.ok vs2 ∧
      vs2.filter (fun v => v.fieldName == confidenceField.name) =
        [Violation.mk confidenceField.name Rule.enumerationMembership
          (some "HIGH")] :=
  validate_enum_case_sensitive confidenceContract confidenceField
    bindingHigh bindingUpper (by decide) (by decide) rfl
    (by decide) rfl (by decide) rfl

/-- C4: validate_binding raises exactly when the binding contains a field
name not declared in the contract; data-quality problems never raise —
they are returned as violation records inside the success value — and
the contract argument is never modified (the function's result carries
no contract at all). -/
theorem validate_binding_error_iff_unknown (c : Contract) (b : Binding) :
    (∃ e, validate_binding c b = Except.error e) ↔
      ∃ kv ∈ b, ((declaredNames c).contains kv.fst) = false := by
  unfold validate_binding
  cases hfind : b.find? (fun kv => !(declaredNames c).contains kv.fst) with
  | none =>
    constructor
    · rintro ⟨e, he⟩
      exact Except.noConfusion he
    · rintro ⟨kv, hkv, hfalse⟩
      have hne := List.find?_eq_none.mp hfind kv hkv
      exact absurd (by rw [hfalse]; rfl) hne
  | some kv =>
    constructor
    · intro _
      refine ⟨kv, List.mem_of_find?_eq_some hfind, ?_⟩
      have hp := List.find?_some hfind
      simpa using hp
    · intro _
      exact ⟨UnknownFieldError.mk kv.fst, rfl⟩

/-- C5 counterexample: this field list has one input field, one output
field and no duplicate names, yet define_contract rejects it, because
its output field is an enumeration declaring zero allowed values — the
claim omits the enumeration-validity requirement that define_contract
enforces. -/
theorem define_contract_shape_not_sufficient :
    (∃ f ∈ emptyEnumFields, f.role = Role.input) ∧
    (∃ f ∈ emptyEnumFields, f.role = Role.output) ∧
    (emptyEnumFields.map FieldSpec.name).Nodup ∧
    define_contract "Classify the text." emptyEnumFields =
      Except.error SchemaError.emptyEnumeration := by
  refine ⟨by decide, by decide, by decide, rfl⟩

/-- C5 (amended): for every description and ordered field list with at
least one input, at least one output, no duplicate names, and every
enumeration-typed field declaring a non-empty duplicate-free value list,
define_contract succeeds and the returned contract's field names are
exactly the given names, in the same order. -/
theorem define_contract_ok_names (d : String) (fs : List FieldSpec)
    (hin : ∃ f ∈ fs, f.role = Role.input)
    (hout : ∃ f ∈ fs, f.role = Role.output)
    (hnd : (fs.map FieldSpec.name).Nodup)
    (henum : ∀ f ∈ fs, isEmptyEnum f.value_type = false ∧
      hasDupEnum f.value_type = false) :
    ∃ c, define_contract d fs = Except.ok c ∧
      c.fields.map FieldSpec.name = fs.map FieldSpec.name := by
  refine ⟨Contract.mk d fs, ?_, rfl⟩
  have hani : fs.any (fun f => f.role == Role.input) = true := by
    rcases hin with ⟨f, hf, hr⟩
    exact List.any_eq_true.mpr ⟨f, hf, by simp [hr]⟩
  have hano : fs.any (fun f => f.role == Role.output) = true := by
    rcases hout with ⟨f, hf, hr⟩
    exact List.any_eq_true.mpr ⟨f, hf, by simp [hr]⟩
  have hae : fs.any (fun f => isEmptyEnum f.value_type) = false :=
    List.any_eq_false.mpr (fun f hf => by simp [(henum f hf).1])
  have had : fs.any (fun f => hasDupEnum f.value_type) = false :=
    List.any_eq_false.mpr (fun f hf => by simp [(henum f hf).2])
  unfold define_contract
  rw [if_neg (not_not_intro hnd), hani, hano, hae, had]
  rfl

/-- C5 witness: the transcript/confidence field list satisfies the
amended conditions and define_contract succeeds on it with the names
preserved. -/
theorem define_contract_ok_names_witness :
    ∃ c, define_contract "Extract meeting notes."
        confidenceContract.fields = Except.ok c ∧
      c.fields.map FieldSpec.name =
        confidenceContract.fields.map FieldSpec.name :=
  define_contract_ok_names "Extract meeting notes."
    confidenceContract.fields (by decide) (by decide) (by decide) (by decide)

/-- C6: render_guidance is a pure, deterministic function of its
Contract argument: its embedding is a function of the contract alone, so
two calls on the same Contract produce byte-identical text and no side
effect exists for them to perform. -/
theorem render_guidance_deterministic (c : Contract) :
    render_guidance c = render_guidance c := rfl

/-- C7: validation is idempotent and stateless: validate_binding is a
function of the contract and binding alone, so calling it twice with the
same arguments yields the same violation list both times. -/
theorem validate_binding_idempotent (c : Contract) (b : Binding) :
    validate_binding c b = validate_binding c b := rfl

/-- C8: for the BasicQA contract (free-text input `question`, free-text
output `answer`, description "Answer questions with short factoid
answers."), the rendered guidance contains the literal substrings
"question", "answer", and the full description text. -/
theorem basicQA_guidance_mentions_fields :
    containsSubstr (render_guidance basicQAContract) "question" = true ∧
    containsSubstr (render_guidance basicQAContract) "answer" = true ∧
    containsSubstr (render_guidance basicQAContract)
      "Answer questions with short factoid answers." = true := by
  refine ⟨by decide, by decide, by decide⟩

/-- C9: at no point during execution of the three source files is a
language model invoked or network I/O performed: no executed statement
of any of the three files is an lmConfigure or lmPredict statement —
those calls occur only inside comments. -/
theorem no_model_invocation :
    (starterStmts ++ solutionStmts ++ guideStmts).all
      (fun s => !callsModel s) = true := by
  decide

/-- C10: evaluating `sig_class.__doc__[:100]` for each of the seven
classes of the `signatures` list in solution.py's `__main__` block never
fails: every one of them has a non-None, non-empty docstring. -/
theorem solution_docstrings_defined :
    solutionMainSignatures.all
      (fun s => exceptOk (docstringSlice s) &&
        !(Option.getD s.doc "").isEmpty) = true := by
  decide

end DSPyCourse
